import Mathlib

/-!
Shallow embedding of the virtual-interview session orchestrator
(`frontend/src/InterviewTab.jsx`).

The component state (React `useState` hooks and `useRef` handles) is
modelled as one record `AppState`.  Browser resources are made explicit:
`videoTracks`/`audioTracks` count the live tracks held by `streamRef` /
`audioStreamRef` (0 encodes a null ref), `videoSrcSet` encodes whether the
preview surface has a live source (`videoRef.current.videoWidth > 0`), and
`recorder` is the `mediaRecorderRef` handle.  A ghost event trace `events`
records track releases and relay calls in program order, and ghost
counters (`timerClears`, `frameIntervalClears`, `recorderStops`) count the
`clearInterval` / `recorder.stop()` effects.  `toasts` counts user-visible
notifications.  Network outcomes are passed in as oracle values
(`SubmitResp`, `FinishResp`); the component is always mounted
(`mountedRef.current = true`) in the modelled runs.
-/

/-- A sampled, downscaled, compressed video frame (the base64 JPEG payload
of `captureFrame`); its contents are irrelevant to the claims. -/
abbrev Frame := Nat

/-- One ~1-second audio chunk delivered by `ondataavailable`. -/
abbrev Chunk := Nat

/-- The evaluation object returned by the submit-answer relay. -/
abbrev Eval := Nat

/-- The final report object returned by the finish relay. -/
abbrev Report := Nat

/-- The assembled audio blob: the accumulated chunks of
`audioChunksRef.current`. -/
structure AudioBlob where
  chunks : List Chunk
deriving DecidableEq, Repr

/-- State of the `MediaRecorder` handle. -/
inductive MRState
  | recording
  | inactive
deriving DecidableEq, Repr

/-- The JSON payload posted to `/api/interview/submit-answer`. -/
structure Payload where
  session_id : Option Nat
  video_frames : List Frame
  audio_base64 : String
  text_answer : String
deriving DecidableEq, Repr

/-- Ghost trace events: stopping one device track, posting a
submit-answer payload, posting the finish call. -/
inductive Event
  | trackStop
  | relaySubmit (p : Payload)
  | relayFinish
deriving DecidableEq, Repr

/-- The `stage` state variable. -/
inductive Stage
  | setup
  | interview
  | result
deriving DecidableEq, Repr

/-- The component state of `InterviewContent`, with explicit resource
handles and ghost instrumentation. -/
structure AppState where
  stage : Stage
  sessionId : Option Nat
  questionsLen : Nat
  currentQuestionIdx : Nat
  loading : Bool
  result : Option Report
  currentEvaluation : Option Eval
  textAnswer : String
  cameraOn : Bool
  isRecording : Bool
  videoRecorded : Bool
  capturedFrames : List Frame
  audioBlob : Option AudioBlob
  transcriptText : String
  videoTracks : Nat
  audioTracks : Nat
  videoSrcSet : Bool
  feedFrame : Frame
  recorder : Option MRState
  audioChunks : List Chunk
  timerActive : Bool
  frameIntervalActive : Bool
  timerClears : Nat
  frameIntervalClears : Nat
  recorderStops : Nat
  events : List Event
  toasts : Nat
deriving DecidableEq, Repr

/-- Embedding of `captureFrame`: returns the current feed content when the preview
surface has a live source (`videoRef.current.videoWidth` nonzero),
otherwise `null`. -/
def captureFrame (s : AppState) : Option Frame :=
  if s.videoSrcSet then some s.feedFrame else none

/-- Embedding of `stopCamera`: stops every track of `streamRef` and `audioStreamRef`,
nulls both refs, detaches the preview source, and resets the camera and
recording flags.  It touches no timer, interval or recorder handle. -/
def stopCamera (s : AppState) : AppState :=
  { s with
    events := s.events ++ List.replicate (s.videoTracks + s.audioTracks) Event.trackStop
    videoTracks := 0
    audioTracks := 0
    videoSrcSet := false
    cameraOn := false
    isRecording := false }

/-- First phase of `stopVideoAnswer`: `clearInterval(timerRef.current)`
guarded by the null check, then nulling the ref. -/
def clearTimerStep (s : AppState) : AppState :=
  if s.timerActive then
    { s with timerActive := false, timerClears := s.timerClears + 1 }
  else s

/-- The `clearInterval(frameIntervalRef.current)` call guarded by the null check,
then nulling the ref. -/
def clearFrameIntervalStep (s : AppState) : AppState :=
  if s.frameIntervalActive then
    { s with frameIntervalActive := false
             frameIntervalClears := s.frameIntervalClears + 1 }
  else s

/-- The forced final sample of `stopVideoAnswer`: capture a frame and, if
one was produced, append it to `capturedFrames` (no eviction). -/
def finalFrameStep (s : AppState) : AppState :=
  match captureFrame s with
  | some f => { s with capturedFrames := s.capturedFrames ++ [f] }
  | none => s

/-- Recorder shutdown in `stopVideoAnswer`: when the handle exists and is
not inactive, stop it, await the flush confirmation (`onstop`), and
assemble the blob from the accumulated chunks when any exist. -/
def stopRecorderStep (s : AppState) : AppState :=
  if s.recorder = some MRState.recording then
    let t := { s with recorder := some MRState.inactive
                      recorderStops := s.recorderStops + 1 }
    if t.audioChunks = [] then t
    else { t with audioBlob := some ⟨t.audioChunks⟩ }
  else s

/-- Embedding of `stopVideoAnswer`: clear the recording flag, clear both intervals,
take the forced final frame, shut down the recorder, then set
`videoRecorded` and raise the completion notification. -/
def stopVideoAnswer (s : AppState) : AppState :=
  let s1 := stopRecorderStep (finalFrameStep (clearFrameIntervalStep
    (clearTimerStep { s with isRecording := false })))
  { s1 with videoRecorded := true, toasts := s1.toasts + 1 }

/-- The 3-second frame-sampling interval callback of `startVideoAnswer`:
capture a frame and push it onto the last two retained frames
(`prev.slice(-2)` concatenated with the new frame). -/
def frameTick (s : AppState) : AppState :=
  match captureFrame s with
  | some f =>
      { s with capturedFrames :=
          s.capturedFrames.drop (s.capturedFrames.length - 2) ++ [f] }
  | none => s

/-- Embedding of `resetRecordingState`: the re-record reset — clears the recorded
flag, the frame buffer, the audio blob, the transcript and the chunk
accumulator. -/
def resetRecordingState (s : AppState) : AppState :=
  { s with videoRecorded := false
           capturedFrames := []
           audioBlob := none
           transcriptText := ""
           audioChunks := [] }

/-- The cleanup function of the unmount effect: `stopCamera()` followed
by clearing `timerRef` when set.  `frameIntervalRef` is not touched. -/
def unmountCleanup (s : AppState) : AppState :=
  clearTimerStep (stopCamera s)

/-- Embedding of `resetInterview`: release the camera, return to `Setup` and clear the
session fields.  `capturedFrames`, `audioBlob`, `transcriptText`,
`videoRecorded` and the interval handles are not touched. -/
def resetInterview (s : AppState) : AppState :=
  { stopCamera s with
    stage := Stage.setup
    sessionId := none
    questionsLen := 0
    currentQuestionIdx := 0
    result := none
    currentEvaluation := none
    textAnswer := "" }

/-- Outcome of the finish relay call as the client observes it: a
response carrying the `success` flag and a report, or a thrown
(transport) error. -/
inductive FinishResp
  | resp (success : Bool) (report : Report)
  | exn
deriving DecidableEq, Repr

/-- Embedding of `finishInterview`: release the camera first, set the busy flag, issue
the finish call; on a `success` response store the report and enter the
result stage with a notification; on a thrown error surface the error and
still enter the result stage; a non-`success` response takes neither
branch. -/
def finishInterview (o : FinishResp) (s : AppState) : AppState :=
  let s1 := stopCamera s
  let s2 := { s1 with loading := true, events := s1.events ++ [Event.relayFinish] }
  match o with
  | FinishResp.resp true r =>
      { s2 with result := some r, stage := Stage.result
                toasts := s2.toasts + 1, loading := false }
  | FinishResp.resp false _ => { s2 with loading := false }
  | FinishResp.exn =>
      { s2 with toasts := s2.toasts + 1, stage := Stage.result
                loading := false }

/-- Embedding of `nextQuestion`: advance to the next index — clearing the evaluation,
the text answer and the recording state — until the last question, where
it invokes `finishInterview` instead. -/
def nextQuestion (o : FinishResp) (s : AppState) : AppState :=
  if s.currentQuestionIdx < s.questionsLen - 1 then
    resetRecordingState
      { s with currentQuestionIdx := s.currentQuestionIdx + 1
               currentEvaluation := none
               textAnswer := "" }
  else finishInterview o s

/-- JS `String.prototype.trim`: strip whitespace from both ends of the
string (written over the character list so that it evaluates inside the
kernel). -/
def jsTrim (s : String) : String :=
  ⟨((s.data.dropWhile Char.isWhitespace).reverse.dropWhile
      Char.isWhitespace).reverse⟩

/-- Outcome of a submit-answer relay call: a response with the `success`
flag and an optional evaluation, or a thrown error. -/
inductive SubmitResp
  | resp (success : Bool) (eval : Option Eval)
  | exn
deriving DecidableEq, Repr

/-- Embedding of `blobToBase64`: the base64 encoding of an assembled audio blob,
modelled as an injective serialisation of its chunk list. -/
def blobToBase64 (b : AudioBlob) : String :=
  toString b.chunks

/-- The payload assembled by `submitWithAudio`: the last up-to-3 captured
frames (`capturedFrames.slice(-3)`), the base64 audio when a blob exists
(empty string otherwise), and the trimmed manual transcript. -/
def audioPayload (s : AppState) : Payload :=
  { session_id := s.sessionId
    video_frames := s.capturedFrames.drop (s.capturedFrames.length - 3)
    audio_base64 :=
      match s.audioBlob with
      | some b => blobToBase64 b
      | none => ""
    text_answer := jsTrim s.transcriptText }

/-- Shared response handling of `submitWithAudio` and
`submitWithManualTranscript`: on success store the evaluation, reset the
recording state and notify; otherwise surface an error. -/
def handleSubmitResp (o : SubmitResp) (s : AppState) : AppState :=
  match o with
  | SubmitResp.resp true e =>
      resetRecordingState
        { s with currentEvaluation := e, toasts := s.toasts + 1
                 loading := false }
  | SubmitResp.resp false _ => { s with toasts := s.toasts + 1, loading := false }
  | SubmitResp.exn => { s with toasts := s.toasts + 1, loading := false }

/-- Embedding of `submitTextAnswer`: reject an empty (after trimming) text answer with
a notification and no network call; otherwise post a text-only payload
and handle the response (the success path clears `textAnswer` rather than
the recording state). -/
def submitTextAnswer (o : SubmitResp) (s : AppState) : AppState :=
  if jsTrim s.textAnswer = "" then { s with toasts := s.toasts + 1 }
  else
    let p : Payload :=
      { session_id := s.sessionId, video_frames := []
        audio_base64 := "", text_answer := jsTrim s.textAnswer }
    let s1 := { s with loading := true, currentEvaluation := none
                       events := s.events ++ [Event.relaySubmit p] }
    match o with
    | SubmitResp.resp true e =>
        { s1 with currentEvaluation := e, textAnswer := ""
                  toasts := s1.toasts + 1, loading := false }
    | SubmitResp.resp false _ => { s1 with toasts := s1.toasts + 1, loading := false }
    | SubmitResp.exn => { s1 with toasts := s1.toasts + 1, loading := false }

/-- Embedding of `submitWithAudio`: no client-side validation — always assembles the
audio payload and posts it. -/
def submitWithAudio (o : SubmitResp) (s : AppState) : AppState :=
  let s1 := { s with loading := true, currentEvaluation := none
                     events := s.events ++ [Event.relaySubmit (audioPayload s)] }
  handleSubmitResp o s1

/-- Embedding of `submitWithManualTranscript`: reject an empty (after trimming)
transcript with a notification and no network call; otherwise post the
frames plus transcript with empty audio and handle the response. -/
def submitWithManualTranscript (o : SubmitResp) (s : AppState) : AppState :=
  if jsTrim s.transcriptText = "" then { s with toasts := s.toasts + 1 }
  else
    let p : Payload :=
      { session_id := s.sessionId
        video_frames := s.capturedFrames.drop (s.capturedFrames.length - 3)
        audio_base64 := "", text_answer := jsTrim s.transcriptText }
    let s1 := { s with loading := true, currentEvaluation := none
                       events := s.events ++ [Event.relaySubmit p] }
    handleSubmitResp o s1

/-- Whether a trace event is a device-track release. -/
def isTrackStop : Event → Bool
  | Event.trackStop => true
  | _ => false

/-- Number of device-track releases recorded in a trace. -/
def countTrackStops (es : List Event) : Nat :=
  es.countP isTrackStop

/-- Whether a trace event is a submit-answer relay call. -/
def isRelaySubmit : Event → Bool
  | Event.relaySubmit _ => true
  | _ => false

/-- The capture-pipeline / controller operations quantified over in the
frame-window claims: an interval tick, a stop-answer invocation (which
contains the forced stop-time sample), and the re-record reset. -/
inductive CapOp
  | tick
  | stopAnswer
  | rerecord
deriving DecidableEq, Repr

/-- Apply one capture operation. -/
def applyCapOp (s : AppState) : CapOp → AppState
  | CapOp.tick => frameTick s
  | CapOp.stopAnswer => stopVideoAnswer s
  | CapOp.rerecord => resetRecordingState s

/-- Run a sequence of capture operations in order. -/
def runCapOps (s : AppState) (ops : List CapOp) : AppState :=
  ops.foldl applyCapOp s

/-- Number of stop-answer invocations (hence forced stop-time samples) in
an operation sequence. -/
def countStops (ops : List CapOp) : Nat :=
  ops.countP (fun op => op = CapOp.stopAnswer)

/-- A state of the fresh interview screen: in the interview stage, camera
never started, no recording, empty capture buffer (the `useState`
defaults plus a started session). -/
def freshState : AppState :=
  { stage := Stage.interview, sessionId := some 1, questionsLen := 3
    currentQuestionIdx := 0, loading := false, result := none
    currentEvaluation := none, textAnswer := "", cameraOn := false
    isRecording := false, videoRecorded := false, capturedFrames := []
    audioBlob := none, transcriptText := "", videoTracks := 0
    audioTracks := 0, videoSrcSet := false, feedFrame := 0
    recorder := none, audioChunks := [], timerActive := false
    frameIntervalActive := false, timerClears := 0
    frameIntervalClears := 0, recorderStops := 0, events := [], toasts := 0 }

/-- A state in the middle of an active recording: camera and microphone
acquired (one track each), live preview, recorder running with
accumulated chunks, both intervals pending, empty frame buffer. -/
def recordingState : AppState :=
  { freshState with
    cameraOn := true, isRecording := true, videoSrcSet := true
    videoTracks := 1, audioTracks := 1
    recorder := some MRState.recording, audioChunks := [5, 6]
    timerActive := true, frameIntervalActive := true }

/-- A post-recording state ready for the audio+frames submission: an
assembled audio blob, four captured frames and a manual transcript. -/
def audioReadyState : AppState :=
  { freshState with
    videoRecorded := true, capturedFrames := [1, 2, 3, 4]
    audioBlob := some ⟨[5, 6]⟩, transcriptText := " my answer " }

/-- The tick-tick-tick-stop operation sequence of one maximal-length
recording window. -/
def overflowSeq : List CapOp :=
  [CapOp.tick, CapOp.tick, CapOp.tick, CapOp.stopAnswer]

theorem frameTick_length_le (s : AppState) :
    (frameTick s).capturedFrames.length ≤ max 3 s.capturedFrames.length := by
  cases h : captureFrame s with
  | none => simp [frameTick, h]
  | some f =>
      simp only [frameTick, h, List.length_append, List.length_drop,
        List.length_cons, List.length_nil]
      omega

theorem stopVideoAnswer_capturedFrames (s : AppState) :
    (stopVideoAnswer s).capturedFrames =
      s.capturedFrames ++ (captureFrame s).toList := by
  rcases s with ⟨st, sid, ql, idx, ld, res, ev, ta, cam, rec, vr, cf, ab, tt,
    vt, au, vs, ff, mr, ac, tA, fA, tc, fc, rs, es, ts⟩
  cases tA <;> cases fA <;> cases vs <;> cases ac <;>
    rcases mr with _ | (_ | _) <;>
    simp [stopVideoAnswer, stopRecorderStep, finalFrameStep,
      clearFrameIntervalStep, clearTimerStep, captureFrame]

theorem runCapOps_length_le (ops : List CapOp) (s : AppState) :
    (runCapOps s ops).capturedFrames.length ≤
      max 3 s.capturedFrames.length + countStops ops := by
  induction ops generalizing s with
  | nil =>
      simp only [runCapOps, List.foldl_nil, countStops, List.countP_nil]
      omega
  | cons op rest ih =>
      have hfold : runCapOps s (op :: rest) = runCapOps (applyCapOp s op) rest := by
        simp [runCapOps]
      rw [hfold]
      have hrec := ih (applyCapOp s op)
      cases op with
      | tick =>
          have hstep : (applyCapOp s CapOp.tick).capturedFrames.length ≤
              max 3 s.capturedFrames.length := frameTick_length_le s
          have hcount : countStops (CapOp.tick :: rest) = countStops rest := by
            simp [countStops, List.countP_cons]
          rw [hcount]
          omega
      | stopAnswer =>
          have hstep : (applyCapOp s CapOp.stopAnswer).capturedFrames.length ≤
              s.capturedFrames.length + 1 := by
            show (stopVideoAnswer s).capturedFrames.length ≤ _
            rw [stopVideoAnswer_capturedFrames]
            cases h : captureFrame s <;> simp [h]
          have hcount : countStops (CapOp.stopAnswer :: rest) = countStops rest + 1 := by
            simp [countStops, List.countP_cons]
          rw [hcount]
          omega
      | rerecord =>
          have hstep : (applyCapOp s CapOp.rerecord).capturedFrames.length = 0 := rfl
          have hcount : countStops (CapOp.rerecord :: rest) = countStops rest := by
            simp [countStops, List.countP_cons]
          rw [hcount]
          omega

/-- Claim C1 (counterexample): starting an empty capture buffer with a
live feed, three interval ticks followed by the forced stop-time sample
leave the buffer at length 4 — the stop-time push performs no eviction,
so the window bound 3 is exceeded. -/
theorem frame_window_counterexample :
    (runCapOps recordingState overflowSeq).capturedFrames.length = 4 ∧
    ¬ (runCapOps recordingState overflowSeq).capturedFrames.length ≤ 3 := by
  decide

/-- Claim C1 (as amended): for every operation sequence of interval
ticks, stop-answer invocations and re-record resets run from an empty
capture buffer, the buffer length never exceeds 3 plus the number of
forced stop-time samples taken; interval ticks alone keep it within 3,
and each stop-time sample can push it one past the window. -/
theorem frame_window_bound (ops : List CapOp) (s : AppState)
    (h : s.capturedFrames = []) :
    (runCapOps s ops).capturedFrames.length ≤ 3 + countStops ops := by
  have := runCapOps_length_le ops s
  rw [h] at this
  simpa using this

/-- Witness for `frame_window_bound` at the concrete overflow run. -/
theorem frame_window_bound_witness :
    (runCapOps recordingState overflowSeq).capturedFrames.length ≤
      3 + countStops overflowSeq :=
  frame_window_bound overflowSeq recordingState rfl

/-- Claim C2 (counterexample): from a mid-recording state, a second
immediate invocation of `stopVideoAnswer` is not a no-op — it appends
another final frame and re-raises the completion notification — and the
two invocations together release zero device tracks, not one per
acquired track. -/
theorem stop_answer_double_counterexample :
    stopVideoAnswer (stopVideoAnswer recordingState) ≠ stopVideoAnswer recordingState ∧
    (stopVideoAnswer (stopVideoAnswer recordingState)).capturedFrames.length =
      (stopVideoAnswer recordingState).capturedFrames.length + 1 ∧
    recordingState.videoTracks + recordingState.audioTracks = 2 ∧
    countTrackStops (stopVideoAnswer (stopVideoAnswer recordingState)).events = 0 := by
  decide

/-- Claim C2 (as amended): a second immediate invocation of
`stopVideoAnswer` clears no interval twice and does not double-stop the
audio recorder (the interval handles are nulled and the recorder's
inactive state is guarded), and it releases no device track — but it is
not a no-op: it captures and appends one more final frame when the
preview feed is live, and raises the completion notification again. -/
theorem stop_answer_second_call (s : AppState) :
    stopVideoAnswer (stopVideoAnswer s) =
      { stopVideoAnswer s with
        capturedFrames := (stopVideoAnswer s).capturedFrames ++
          (captureFrame (stopVideoAnswer s)).toList
        toasts := (stopVideoAnswer s).toasts + 1 } := by
  rcases s with ⟨st, sid, ql, idx, ld, res, ev, ta, cam, rec, vr, cf, ab, tt,
    vt, au, vs, ff, mr, ac, tA, fA, tc, fc, rs, es, ts⟩
  cases tA <;> cases fA <;> cases vs <;> cases ac <;>
    rcases mr with _ | (_ | _) <;>
    simp [stopVideoAnswer, stopRecorderStep, finalFrameStep,
      clearFrameIntervalStep, clearTimerStep, captureFrame]

/-- Claim C3 (counterexample): invoking `stopVideoAnswer` on a fresh
interview state, before any `startVideoAnswer`, is observably effectful —
it flips `videoRecorded` to true and raises the completion
notification. -/
theorem stop_before_begin_counterexample :
    stopVideoAnswer freshState ≠ freshState ∧
    freshState.videoRecorded = false ∧
    (stopVideoAnswer freshState).videoRecorded = true ∧
    (stopVideoAnswer freshState).toasts = freshState.toasts + 1 := by
  decide

/-- Claim C3 (as amended): on any state in which recording has never
begun — no pending timer or interval, no recorder handle, no live
preview feed, not recording — `stopVideoAnswer` raises no error, clears
nothing, releases nothing and captures no frame, but it does set
`videoRecorded` and raise the completion notification; it is not free of
observable effect. -/
theorem stop_before_begin_effect (s : AppState)
    (h1 : s.timerActive = false) (h2 : s.frameIntervalActive = false)
    (h3 : s.recorder = none) (h4 : s.videoSrcSet = false)
    (h5 : s.isRecording = false) :
    stopVideoAnswer s = { s with videoRecorded := true, toasts := s.toasts + 1 } := by
  rcases s with ⟨st, sid, ql, idx, ld, res, ev, ta, cam, rec, vr, cf, ab, tt,
    vt, au, vs, ff, mr, ac, tA, fA, tc, fc, rs, es, ts⟩
  dsimp only at h1 h2 h3 h4 h5
  subst h1; subst h2; subst h3; subst h4; subst h5
  simp [stopVideoAnswer, stopRecorderStep, finalFrameStep,
    clearFrameIntervalStep, clearTimerStep, captureFrame]

/-- Witness for `stop_before_begin_effect` at the fresh interview
state. -/
theorem stop_before_begin_effect_witness :
    stopVideoAnswer freshState =
      { freshState with videoRecorded := true, toasts := freshState.toasts + 1 } :=
  stop_before_begin_effect freshState rfl rfl rfl rfl rfl

/-- Claim C4 (code bug, evaluated at the failing input): tearing down a
mid-recording session does not clear every pending timer and interval.
The unmount cleanup stops all device tracks and clears the per-second
countdown timer but leaves the 3-second frame-sampling interval pending,
and the explicit reset stops all tracks but clears neither the countdown
timer nor the frame-sampling interval. -/
theorem teardown_pending_interval_bug :
    (unmountCleanup recordingState).videoTracks = 0 ∧
    (unmountCleanup recordingState).audioTracks = 0 ∧
    (unmountCleanup recordingState).timerActive = false ∧
    (unmountCleanup recordingState).frameIntervalActive = true ∧
    (resetInterview recordingState).videoTracks = 0 ∧
    (resetInterview recordingState).audioTracks = 0 ∧
    (resetInterview recordingState).timerActive = true ∧
    (resetInterview recordingState).frameIntervalActive = true := by
  decide

/-- Claim C5 (counterexample): a finish relay response that arrives
without throwing but carries an unsuccessful flag leaves the stage at
Interview — the terminal Result stage is not reached, contradicting
"regardless of the outcome". -/
theorem finish_stall_counterexample :
    recordingState.stage = Stage.interview ∧
    (finishInterview (FinishResp.resp false 7) recordingState).stage = Stage.interview ∧
    (finishInterview (FinishResp.resp false 7) recordingState).stage ≠ Stage.result := by
  decide

/-- Claim C5 (as amended): `finishInterview` reaches the terminal Result
stage on a successful response — storing the returned report — and on a
thrown relay error — keeping the default (unset) report; but on a
response carrying an unsuccessful flag the stage is left unchanged. -/
theorem finish_stage_transitions (s : AppState) (r : Report) :
    (finishInterview (FinishResp.resp true r) s).stage = Stage.result ∧
    (finishInterview (FinishResp.resp true r) s).result = some r ∧
    (finishInterview FinishResp.exn s).stage = Stage.result ∧
    (finishInterview FinishResp.exn s).result = s.result ∧
    (finishInterview (FinishResp.resp false r) s).stage = s.stage ∧
    (finishInterview (FinishResp.resp false r) s).result = s.result :=
  ⟨rfl, rfl, rfl, rfl, rfl, rfl⟩

/-- Claim C6 (counterexample): resetting from a state holding a captured
frame, an audio blob and a transcript does not clear the capture buffer —
all three survive the reset, contradicting "clears all in-memory session
entities". -/
theorem reset_keeps_capture_counterexample :
    ¬ ((resetInterview audioReadyState).capturedFrames = [] ∧
       (resetInterview audioReadyState).audioBlob = none ∧
       (resetInterview audioReadyState).transcriptText = "") := by
  decide

/-- Claim C6 (as amended): `resetInterview` releases all device tracks,
returns to Setup and clears the session id, question list, question
index, evaluation, final report and answer text — but it leaves the
capture buffer (captured frames, audio blob, transcript) and the
recorded flag untouched. -/
theorem reset_interview_effect (s : AppState) :
    (resetInterview s).stage = Stage.setup ∧
    (resetInterview s).sessionId = none ∧
    (resetInterview s).questionsLen = 0 ∧
    (resetInterview s).currentQuestionIdx = 0 ∧
    (resetInterview s).result = none ∧
    (resetInterview s).currentEvaluation = none ∧
    (resetInterview s).textAnswer = "" ∧
    (resetInterview s).videoTracks = 0 ∧
    (resetInterview s).audioTracks = 0 ∧
    (resetInterview s).cameraOn = false ∧
    (resetInterview s).capturedFrames = s.capturedFrames ∧
    (resetInterview s).audioBlob = s.audioBlob ∧
    (resetInterview s).transcriptText = s.transcriptText ∧
    (resetInterview s).videoRecorded = s.videoRecorded :=
  ⟨rfl, rfl, rfl, rfl, rfl, rfl, rfl, rfl, rfl, rfl, rfl, rfl, rfl, rfl⟩

theorem nextQuestion_questionsLen (o : FinishResp) (s : AppState) :
    (nextQuestion o s).questionsLen = s.questionsLen := by
  unfold nextQuestion
  split
  · rfl
  · rcases o with ⟨(_ | _), r⟩ | _ <;> rfl

theorem nextQuestion_idx (o : FinishResp) (s : AppState) :
    (nextQuestion o s).currentQuestionIdx =
      if s.currentQuestionIdx < s.questionsLen - 1 then s.currentQuestionIdx + 1
      else s.currentQuestionIdx := by
  unfold nextQuestion
  split
  · rfl
  · rcases o with ⟨(_ | _), r⟩ | _ <;> rfl

theorem advance_idx_general (os : List FinishResp) (s : AppState)
    (hi : s.currentQuestionIdx ≤ s.questionsLen - 1) :
    (os.foldl (fun t o => nextQuestion o t) s).currentQuestionIdx =
      min (s.currentQuestionIdx + os.length) (s.questionsLen - 1) := by
  induction os generalizing s with
  | nil =>
      simp only [List.foldl_nil, List.length_nil, Nat.add_zero]
      omega
  | cons o rest ih =>
      rw [List.foldl_cons]
      have hL := nextQuestion_questionsLen o s
      have hI := nextQuestion_idx o s
      have hle : (nextQuestion o s).currentQuestionIdx ≤
          (nextQuestion o s).questionsLen - 1 := by
        rw [hL, hI]
        split <;> omega
      rw [ih (nextQuestion o s) hle, hL, hI, List.length_cons]
      split <;> omega

/-- Claim C7: for a question list of length at least 1 and any number of
advance operations applied from index 0, the current question index
afterwards equals min(number of advances, totalQuestions − 1): the
advance increments the index strictly below the last question and the
final advance (which triggers the finish path) leaves it unchanged. -/
theorem advance_min_index (os : List FinishResp) (s : AppState)
    (hq : 1 ≤ s.questionsLen) (h0 : s.currentQuestionIdx = 0) :
    (os.foldl (fun t o => nextQuestion o t) s).currentQuestionIdx =
      min os.length (s.questionsLen - 1) := by
  have h := advance_idx_general os s (by omega)
  rw [h0] at h
  simpa using h

/-- Witness for `advance_min_index`: five advances over three questions
land on index 2. -/
theorem advance_min_index_witness :
    ((List.replicate 5 FinishResp.exn).foldl (fun t o => nextQuestion o t)
      freshState).currentQuestionIdx = 2 := by
  have h := advance_min_index (List.replicate 5 FinishResp.exn) freshState
    (by decide) rfl
  simpa using h

theorem handleSubmitResp_events (o : SubmitResp) (s : AppState) :
    (handleSubmitResp o s).events = s.events := by
  rcases o with ⟨(_ | _), e⟩ | _ <;> rfl

/-- Claim C8: when an audio blob was recorded and the manual transcript
is non-empty after trimming, `submitWithAudio` posts exactly one payload
carrying the trimmed manual transcript as the text answer alongside the
base64 encoding of the blob, and its frame list is a suffix of the
captured frames of length at most 3 (the most recent ones). -/
theorem submit_audio_payload (o : SubmitResp) (s : AppState) (b : AudioBlob)
    (hb : s.audioBlob = some b) (ht : jsTrim s.transcriptText ≠ "") :
    (submitWithAudio o s).events =
      s.events ++ [Event.relaySubmit (audioPayload s)] ∧
    (audioPayload s).text_answer = jsTrim s.transcriptText ∧
    (audioPayload s).audio_base64 = blobToBase64 b ∧
    (audioPayload s).video_frames.length ≤ 3 ∧
    List.IsSuffix (audioPayload s).video_frames s.capturedFrames := by
  refine ⟨?_, rfl, ?_, ?_, ?_⟩
  · rw [submitWithAudio, handleSubmitResp_events]
  · rw [audioPayload, hb]
  · simp only [audioPayload, List.length_drop]
    omega
  · exact List.drop_suffix _ _

/-- Witness for `submit_audio_payload` at the post-recording state with
four captured frames, a two-chunk blob and a padded manual transcript. -/
theorem submit_audio_payload_witness :
    (submitWithAudio SubmitResp.exn audioReadyState).events =
      audioReadyState.events ++ [Event.relaySubmit (audioPayload audioReadyState)] ∧
    (audioPayload audioReadyState).text_answer = jsTrim audioReadyState.transcriptText ∧
    (audioPayload audioReadyState).audio_base64 = blobToBase64 ⟨[5, 6]⟩ ∧
    (audioPayload audioReadyState).video_frames.length ≤ 3 ∧
    List.IsSuffix (audioPayload audioReadyState).video_frames
      audioReadyState.capturedFrames :=
  submit_audio_payload SubmitResp.exn audioReadyState ⟨[5, 6]⟩ rfl (by decide)

/-- Claim C9 (counterexample): `submitWithAudio` performs no client-side
validation — invoked on the fresh state, whose effective answer content
is entirely empty (no audio blob, empty transcript, no frames), it still
issues the submit-answer relay call carrying an all-empty payload. -/
theorem submit_audio_no_validation_counterexample :
    (audioPayload freshState).text_answer = "" ∧
    (audioPayload freshState).audio_base64 = "" ∧
    (audioPayload freshState).video_frames = [] ∧
    (submitWithAudio SubmitResp.exn freshState).events.countP isRelaySubmit = 1 := by
  decide

/-- Claim C9 (as amended): the text-only and manual-transcript submission
paths reject an empty (after trimming) answer client-side: they raise the
validation notification and return with no network call and no other
state change.  The audio+frames path performs no such validation and
always issues the request. -/
theorem empty_answer_guards (o : SubmitResp) (s : AppState) :
    (jsTrim s.textAnswer = "" →
      submitTextAnswer o s = { s with toasts := s.toasts + 1 }) ∧
    (jsTrim s.transcriptText = "" →
      submitWithManualTranscript o s = { s with toasts := s.toasts + 1 }) := by
  constructor
  · intro h
    rw [submitTextAnswer, if_pos h]
  · intro h
    rw [submitWithManualTranscript, if_pos h]

/-- Witness for `empty_answer_guards` at the fresh state, where both the
text answer and the transcript are empty. -/
theorem empty_answer_guards_witness :
    submitTextAnswer SubmitResp.exn freshState =
      { freshState with toasts := freshState.toasts + 1 } ∧
    submitWithManualTranscript SubmitResp.exn freshState =
      { freshState with toasts := freshState.toasts + 1 } :=
  ⟨(empty_answer_guards SubmitResp.exn freshState).1 (by decide),
   (empty_answer_guards SubmitResp.exn freshState).2 (by decide)⟩

/-- Claim C10: `finishInterview` releases both device streams before
contacting the server — its event trace appends every track release ahead
of the finish relay call, and the resulting state (whatever the relay
outcome, hence whenever the Result stage is entered through finish) holds
zero live device tracks. -/
theorem finish_releases_before_relay (o : FinishResp) (s : AppState) :
    (finishInterview o s).events =
      s.events ++ (List.replicate (s.videoTracks + s.audioTracks) Event.trackStop
        ++ [Event.relayFinish]) ∧
    (finishInterview o s).videoTracks = 0 ∧
    (finishInterview o s).audioTracks = 0 := by
  rcases o with ⟨(_ | _), r⟩ | _ <;>
    exact ⟨by simp [finishInterview, stopCamera], rfl, rfl⟩
